import Mathlib

/-!
# Verification of the `tupas.b02k` signature-validation module

A shallow embedding of `tupas/b02k.py` (a validator for Finnish TUPAS
bank-authentication callback URLs) together with executable models of the
pieces of the Python standard library the module calls
(`hashlib.sha256`, `urllib.parse.parse_qs`, `unquote`, `urlencode`,
`urlparse(...).query`).  Machine words are `Nat` with explicit reduction
modulo `2 ^ 32`; bytes are `Nat` below `256`; fallible Python code becomes
`Except`.  All definitions are executable so concrete protocol vectors can
be checked by kernel evaluation.
-/

set_option maxRecDepth 100000

/-! ## SHA-256 over byte lists (bytes are `Nat < 256`, words are `Nat < 2^32`) -/

/-- Truncate to a 32-bit word. -/
def w32 (n : Nat) : Nat := n % 4294967296

/-- Rotate a 32-bit word right by `k` bits. -/
def rotr32 (k x : Nat) : Nat := w32 ((x >>> k) ||| (x <<< (32 - k)))

/-- SHA-256 `Ch` function. -/
def ch32 (x y z : Nat) : Nat := (x &&& y) ^^^ ((x ^^^ 4294967295) &&& z)

/-- SHA-256 `Maj` function. -/
def maj32 (x y z : Nat) : Nat := (x &&& y) ^^^ (x &&& z) ^^^ (y &&& z)

/-- SHA-256 big sigma 0. -/
def sigmaBig0 (x : Nat) : Nat := rotr32 2 x ^^^ rotr32 13 x ^^^ rotr32 22 x

/-- SHA-256 big sigma 1. -/
def sigmaBig1 (x : Nat) : Nat := rotr32 6 x ^^^ rotr32 11 x ^^^ rotr32 25 x

/-- SHA-256 small sigma 0. -/
def sigmaSml0 (x : Nat) : Nat := rotr32 7 x ^^^ rotr32 18 x ^^^ (x >>> 3)

/-- SHA-256 small sigma 1. -/
def sigmaSml1 (x : Nat) : Nat := rotr32 17 x ^^^ rotr32 19 x ^^^ (x >>> 10)

/-- The 64 SHA-256 round constants (FIPS 180-4, written in decimal). -/
def sha256K : List Nat :=
  [1116352408, 1899447441, 3049323471, 3921009573, 961987163, 1508970993,
   2453635748, 2870763221, 3624381080, 310598401, 607225278, 1426881987,
   1925078388, 2162078206, 2614888103, 3248222580, 3835390401, 4022224774,
   264347078, 604807628, 770255983, 1249150122, 1555081692, 1996064986,
   2554220882, 2821834349, 2952996808, 3210313671, 3336571891, 3584528711,
   113926993, 338241895, 666307205, 773529912, 1294757372, 1396182291,
   1695183700, 1986661051, 2177026350, 2456956037, 2730485921, 2820302411,
   3259730800, 3345764771, 3516065817, 3600352804, 4094571909, 275423344,
   430227734, 506948616, 659060556, 883997877, 958139571, 1322822218,
   1537002063, 1747873779, 1955562222, 2024104815, 2227730452, 2361852424,
   2428436474, 2756734187, 3204031479, 3329325298]

/-- Working state of the SHA-256 compression function (eight 32-bit words). -/
structure SHA256State where
  sa : Nat
  sb : Nat
  sc : Nat
  sd : Nat
  se : Nat
  sf : Nat
  sg : Nat
  sh : Nat

/-- The SHA-256 initial hash value (FIPS 180-4, written in decimal). -/
def sha256Init : SHA256State :=
  ⟨1779033703, 3144134277, 1013904242, 2773480762,
   1359893119, 2600822924, 528734635, 1541459225⟩

/-- One SHA-256 compression round with round constant `k` and schedule word `w`. -/
def sha256Round (st : SHA256State) (k w : Nat) : SHA256State :=
  let t1 := w32 (st.sh + sigmaBig1 st.se + ch32 st.se st.sf st.sg + k + w)
  let t2 := w32 (sigmaBig0 st.sa + maj32 st.sa st.sb st.sc)
  ⟨w32 (t1 + t2), st.sa, st.sb, st.sc, w32 (st.sd + t1), st.se, st.sf, st.sg⟩

/-- Extend the 16 words of a block to the 64-word message schedule. -/
def sha256Schedule (block : List Nat) : Array Nat :=
  (List.range 48).foldl
    (fun w j =>
      let i := j + 16
      w.push (w32 (sigmaSml1 (w.getD (i - 2) 0) + w.getD (i - 7) 0 +
                   sigmaSml0 (w.getD (i - 15) 0) + w.getD (i - 16) 0)))
    block.toArray

/-- Process one 512-bit block (given as 16 words) into the chaining state. -/
def sha256Block (st0 : SHA256State) (block : List Nat) : SHA256State :=
  let ws := sha256Schedule block
  let st := (sha256K.zip ws.toList).foldl (fun st p => sha256Round st p.1 p.2) st0
  ⟨w32 (st0.sa + st.sa), w32 (st0.sb + st.sb), w32 (st0.sc + st.sc),
   w32 (st0.sd + st.sd), w32 (st0.se + st.se), w32 (st0.sf + st.sf),
   w32 (st0.sg + st.sg), w32 (st0.sh + st.sh)⟩

/-- Big-endian bytes of a value, `numBytes` wide. -/
def toBE (numBytes v : Nat) : List Nat :=
  (List.range numBytes).map (fun i => (v >>> (8 * (numBytes - 1 - i))) % 256)

/-- Append the SHA-256 padding: a `0x80` byte, zeros to 56 mod 64, and the
bit length as 8 big-endian bytes. -/
def sha256Pad (msg : List Nat) : List Nat :=
  msg ++ 128 :: List.replicate ((119 - msg.length % 64) % 64) 0 ++ toBE 8 (8 * msg.length)

/-- Split a byte list into 64-byte chunks; `fuel` bounds the recursion and any
`fuel ≥ length` is enough. -/
def chunks64 (fuel : Nat) (l : List Nat) : List (List Nat) :=
  match fuel with
  | 0 => []
  | fuel + 1 => if l.isEmpty then [] else l.take 64 :: chunks64 fuel (l.drop 64)

/-- Group bytes four at a time into big-endian 32-bit words. -/
def bytesToWords : List Nat → List Nat
  | b0 :: b1 :: b2 :: b3 :: rest =>
      (((b0 * 256 + b1) * 256 + b2) * 256 + b3) :: bytesToWords rest
  | _ => []

/-- The SHA-256 digest of a byte list, as its 32 digest bytes. -/
def sha256Digest (msg : List Nat) : List Nat :=
  let padded := sha256Pad msg
  let blocks := (chunks64 padded.length padded).map bytesToWords
  let f := blocks.foldl sha256Block sha256Init
  [f.sa, f.sb, f.sc, f.sd, f.se, f.sf, f.sg, f.sh].foldr
    (fun wrd acc => toBE 4 wrd ++ acc) []

/-- Lower-case hexadecimal digit for a value below 16. -/
def hexCharLower (n : Nat) : Char :=
  if n < 10 then Char.ofNat (48 + n) else Char.ofNat (87 + n)

/-- Lower-case hexadecimal rendering of a byte list. -/
def bytesToHexLower (bs : List Nat) : String :=
  (bs.foldr (fun b acc => hexCharLower (b / 16) :: hexCharLower (b % 16) :: acc) []).asString

/-- Model of Python `hashlib.sha256(msg).hexdigest()`: the lower-case
hexadecimal SHA-256 digest of the bytes `msg`. -/
def sha256_hexdigest (msg : List Nat) : String := bytesToHexLower (sha256Digest msg)

/-! ## UTF-8 and character helpers -/

/-- UTF-8 encoding of one character (1–4 bytes), as Python `str.encode()`
produces for each code point. -/
def utf8EncodeChar (c : Char) : List Nat :=
  let n := c.toNat
  if n < 128 then [n]
  else if n < 2048 then [192 + n / 64, 128 + n % 64]
  else if n < 65536 then [224 + n / 4096, 128 + n / 64 % 64, 128 + n % 64]
  else [240 + n / 262144, 128 + n / 4096 % 64, 128 + n / 64 % 64, 128 + n % 64]

/-- UTF-8 bytes of a string, modelling Python `str.encode()`. -/
def strBytes (s : String) : List Nat :=
  s.data.foldr (fun c acc => utf8EncodeChar c ++ acc) []

/-- Upper-case a string, modelling Python `str.upper()` on ASCII text (the
only text it is applied to here: hexadecimal digest strings). -/
def strUpper (s : String) : String := (s.data.map Char.toUpper).asString

/-- Value of a hexadecimal digit character, as accepted by Python's
percent-escape table (upper and lower case). -/
def hexVal (c : Char) : Option Nat :=
  if '0' ≤ c ∧ c ≤ '9' then some (c.toNat - 48)
  else if 'a' ≤ c ∧ c ≤ 'f' then some (c.toNat - 87)
  else if 'A' ≤ c ∧ c ≤ 'F' then some (c.toNat - 55)
  else none

/-! ## Model of `urllib.parse.unquote(string, encoding="utf-8", errors="replace")`

Python turns each ASCII chunk of the input (with its `%XX` escapes replaced by
bytes and its literal ASCII characters kept as bytes) into a byte string and
decodes it as UTF-8 with `errors="replace"`; non-ASCII characters of the input
pass through unchanged.  A `%` not followed by two hex digits stays a literal
`%` byte. -/

/-- Scan a character list into a sequence of bytes (`Sum.inl`) and pass-through
non-ASCII characters (`Sum.inr`); `fuel ≥ length` is enough. -/
def percentScan : Nat → List Char → List (Sum Nat Char)
  | 0, _ => []
  | _ + 1, [] => []
  | fuel + 1, c :: cs =>
    if c = '%' then
      match cs with
      | a :: b :: rest =>
        match hexVal a, hexVal b with
        | some ha, some hb => Sum.inl (16 * ha + hb) :: percentScan fuel rest
        | _, _ => Sum.inl 37 :: percentScan fuel cs
      | _ => Sum.inl 37 :: percentScan fuel cs
    else if c.toNat < 128 then Sum.inl c.toNat :: percentScan fuel cs
    else Sum.inr c :: percentScan fuel cs

/-- The Unicode replacement character `U+FFFD`. -/
def replChar : Char := Char.ofNat 65533

/-- Whether a byte is a UTF-8 continuation byte. -/
def utf8Cont (b : Nat) : Bool := 128 ≤ b ∧ b ≤ 191

/-- Decode bytes as UTF-8 with the `errors="replace"` policy CPython uses: one
replacement character per maximal invalid subpart; `fuel ≥ length` is enough. -/
def utf8DecodeReplace : Nat → List Nat → List Char
  | 0, _ => []
  | _ + 1, [] => []
  | fuel + 1, b :: bs =>
    if b < 128 then Char.ofNat b :: utf8DecodeReplace fuel bs
    else if 194 ≤ b ∧ b ≤ 223 then
      match bs with
      | b1 :: rest =>
        if utf8Cont b1 then
          Char.ofNat ((b - 192) * 64 + (b1 - 128)) :: utf8DecodeReplace fuel rest
        else replChar :: utf8DecodeReplace fuel bs
      | [] => [replChar]
    else if 224 ≤ b ∧ b ≤ 239 then
      match bs with
      | b1 :: rest =>
        let lo := if b = 224 then 160 else 128
        let hi := if b = 237 then 159 else 191
        if lo ≤ b1 ∧ b1 ≤ hi then
          match rest with
          | b2 :: rest2 =>
            if utf8Cont b2 then
              Char.ofNat (((b - 224) * 64 + (b1 - 128)) * 64 + (b2 - 128)) ::
                utf8DecodeReplace fuel rest2
            else replChar :: utf8DecodeReplace fuel rest
          | [] => [replChar]
        else replChar :: utf8DecodeReplace fuel bs
      | [] => [replChar]
    else if 240 ≤ b ∧ b ≤ 244 then
      match bs with
      | b1 :: rest =>
        let lo := if b = 240 then 144 else 128
        let hi := if b = 244 then 143 else 191
        if lo ≤ b1 ∧ b1 ≤ hi then
          match rest with
          | b2 :: rest2 =>
            if utf8Cont b2 then
              match rest2 with
              | b3 :: rest3 =>
                if utf8Cont b3 then
                  Char.ofNat ((((b - 240) * 64 + (b1 - 128)) * 64 + (b2 - 128)) * 64
                              + (b3 - 128)) :: utf8DecodeReplace fuel rest3
                else replChar :: utf8DecodeReplace fuel rest2
              | [] => [replChar]
            else replChar :: utf8DecodeReplace fuel rest
          | [] => [replChar]
        else replChar :: utf8DecodeReplace fuel bs
      | [] => [replChar]
    else replChar :: utf8DecodeReplace fuel bs

/-- Collect the leading maximal run of bytes from a scanned sequence. -/
def gatherRun : List (Sum Nat Char) → List Nat × List (Sum Nat Char)
  | Sum.inl b :: rest => let (bs, r) := gatherRun rest; (b :: bs, r)
  | l => ([], l)

/-- Decode a scanned sequence: each maximal byte run through the UTF-8
replacing decoder, pass-through characters as themselves; `fuel ≥ length`. -/
def decodeRuns : Nat → List (Sum Nat Char) → List Char
  | 0, _ => []
  | _ + 1, [] => []
  | fuel + 1, Sum.inr c :: rest => c :: decodeRuns fuel rest
  | fuel + 1, Sum.inl b :: rest =>
    let (bs, r) := gatherRun rest
    utf8DecodeReplace (b :: bs).length (b :: bs) ++ decodeRuns fuel r

/-- Model of Python `urllib.parse.unquote(s, encoding="utf-8", errors="replace")`. -/
def unquote (s : String) : String :=
  let items := percentScan s.data.length s.data
  (decodeRuns items.length items).asString

/-- Model of Python `s.replace("+", " ")`, applied by `parse_qsl` before
percent-decoding. -/
def replacePlus (s : String) : String :=
  (s.data.map fun c => if c = '+' then ' ' else c).asString

/-! ## Model of `urllib.parse.parse_qs` / `parse_qsl` (defaults:
`keep_blank_values=False`, `strict_parsing=False`, separator `"&"`). -/

/-- Split a character list at every occurrence of `sep`, keeping empty pieces
(Python `str.split(sep)`). -/
def splitChar (sep : Char) : List Char → List (List Char)
  | [] => [[]]
  | c :: rest =>
    let r := splitChar sep rest
    if c = sep then [] :: r
    else
      match r with
      | h :: t => (c :: h) :: t
      | [] => [[c]]

/-- Split a character list at the first `'='`, if any
(Python `str.split("=", 1)`). -/
def splitFirstEq : List Char → Option (List Char × List Char)
  | [] => none
  | c :: rest =>
    if c = '=' then some ([], rest)
    else (splitFirstEq rest).map (fun p => (c :: p.1, p.2))

/-- Model of Python `urllib.parse.parse_qsl(qs)` with default arguments:
split on `"&"`, drop empty pieces, drop pieces without `"="` and pieces whose
value is blank, then `+`-to-space and percent-decode each name and value. -/
def parse_qsl (qs : String) : List (String × String) :=
  (splitChar '&' qs.data).foldr
    (fun piece acc =>
      if piece.isEmpty then acc
      else
        match splitFirstEq piece with
        | none => acc
        | some (n, v) =>
          if v.isEmpty then acc
          else (unquote (replacePlus n.asString), unquote (replacePlus v.asString)) :: acc)
    []

/-- Add one name/value pair to an insertion-ordered grouping, appending the
value when the name is already present (the `parse_qs` accumulation loop). -/
def addPair (acc : List (String × List String)) (kv : String × String) :
    List (String × List String) :=
  match acc with
  | [] => [(kv.1, [kv.2])]
  | (k, vs) :: rest =>
    if k = kv.1 then (k, vs ++ [kv.2]) :: rest else (k, vs) :: addPair rest kv

/-- Model of Python `urllib.parse.parse_qs(qs)`: group the `parse_qsl` pairs
by name in insertion order. -/
def parse_qs (qs : String) : List (String × List String) :=
  (parse_qsl qs).foldl addPair []

/-! ## Model of `urllib.parse.urlencode` (with `quote_plus`) and
`urlparse(url).query` -/

/-- Whether a byte is in Python `urllib.parse`'s always-safe set
(ASCII letters, digits, `_`, `.`, `-`, `~`). -/
def quoteSafeByte (b : Nat) : Bool :=
  (65 ≤ b ∧ b ≤ 90) ∨ (97 ≤ b ∧ b ≤ 122) ∨ (48 ≤ b ∧ b ≤ 57) ∨
    b = 95 ∨ b = 46 ∨ b = 45 ∨ b = 126

/-- Upper-case hexadecimal digit for a value below 16. -/
def hexCharUpper (n : Nat) : Char :=
  if n < 10 then Char.ofNat (48 + n) else Char.ofNat (55 + n)

/-- Model of Python `urllib.parse.quote_plus(s, safe="")`: percent-encode the
UTF-8 bytes outside the always-safe set, with space becoming `+`. -/
def quote_plus (s : String) : String :=
  ((strBytes s).foldr
    (fun b acc =>
      if quoteSafeByte b then Char.ofNat b :: acc
      else if b = 32 then '+' :: acc
      else '%' :: hexCharUpper (b / 16) :: hexCharUpper (b % 16) :: acc)
    []).asString

/-- Model of Python `urllib.parse.urlencode(pairs)` on an insertion-ordered
mapping: `quote_plus` each name and value, join with `=` and `&`. -/
def urlencode (pairs : List (String × String)) : String :=
  String.intercalate "&" (pairs.map fun kv => quote_plus kv.1 ++ "=" ++ quote_plus kv.2)

/-- The part of a character list before the first occurrence of `sep`. -/
def takeUntilChar (sep : Char) : List Char → List Char
  | [] => []
  | c :: rest => if c = sep then [] else c :: takeUntilChar sep rest

/-- The part of a character list after the first occurrence of `sep`, or
`none` when `sep` does not occur. -/
def afterChar (sep : Char) : List Char → Option (List Char)
  | [] => none
  | c :: rest => if c = sep then some rest else afterChar sep rest

/-- Model of Python `urllib.parse.urlparse(url).query`: the part of the URL
after the first `?`, with a `#` fragment (split first) removed. -/
def urlQuery (url : String) : String :=
  let noFrag := takeUntilChar '#' url.data
  match afterChar '?' noFrag with
  | some q => q.asString
  | none => ""

/-- Title-case one character given whether the previous character was cased
(Python `str.title()` step; ASCII casing, exact for the module's ASCII data). -/
def titleChar (prevCased : Bool) (c : Char) : Char :=
  if c.isAlpha then (if prevCased then c.toLower else c.toUpper) else c

/-- Title-case a character list, tracking whether the previous character was
cased. -/
def titleGo : Bool → List Char → List Char
  | _, [] => []
  | prevCased, c :: rest => titleChar prevCased c :: titleGo c.isAlpha rest

/-- Model of Python `str.title()` (ASCII casing): each letter that follows a
non-letter is upper-cased, each letter that follows a letter is lower-cased. -/
def titleStr (s : String) : String := (titleGo false s.data).asString

/-- Split a character list at the first space, Python `str.split(" ", 1)`
style: the part before it and, when a space occurs, the rest verbatim. -/
def splitFirstSpace : List Char → List Char × Option (List Char)
  | [] => ([], none)
  | c :: rest =>
    if c = ' ' then ([], some rest)
    else
      let p := splitFirstSpace rest
      (c :: p.1, p.2)

/-! ## The `tupas.b02k` module -/

/-- The query key holding the inbound signature (`B02K_MAC` in `b02k.py`). -/
def B02K_MAC : String := "B02K_MAC"

/-- The nine protocol field names, in the declared order (`B02K_KEYS`). -/
def B02K_KEYS : List String :=
  ["B02K_VERS", "B02K_TIMESTMP", "B02K_IDNBR", "B02K_STAMP", "B02K_CUSTNAME",
   "B02K_KEYVERS", "B02K_ALG", "B02K_CUSTID", "B02K_CUSTTYPE"]

/-- The nine-field protocol record (`B02KInfo` named tuple in `b02k.py`). -/
structure B02KInfo where
  B02K_VERS : String
  B02K_TIMESTMP : String
  B02K_IDNBR : String
  B02K_STAMP : String
  B02K_CUSTNAME : String
  B02K_KEYVERS : String
  B02K_ALG : String
  B02K_CUSTID : String
  B02K_CUSTTYPE : String
deriving DecidableEq, Repr

/-- The failures the module can raise.  `duplicateFieldError` is the
`ValueError(v)` of `get_qs_dict` (the spec's `DuplicateFieldError`);
`missingFieldError` is the failure on an absent required key — the `TypeError`
of `B02KInfo(**params)` for a protocol field, and the `KeyError` of
`qs[B02K_MAC]` for the signature key (both are the spec's
`MissingFieldError`); `unpackError` is the `ValueError` of unpacking
`first, last = format_names(...)` when the list does not have two elements. -/
inductive TupasError where
  | duplicateFieldError (values : List String)
  | missingFieldError (key : String)
  | unpackError
deriving DecidableEq, Repr

/-- Lookup in an insertion-ordered string dictionary. -/
def dictGet (d : List (String × String)) (k : String) : Option String :=
  match d with
  | [] => none
  | (k', v) :: rest => if k' = k then some v else dictGet rest k

/-- A required field of a decoded dictionary, or `missingFieldError`. -/
def reqField (info : List (String × String)) (k : String) : Except TupasError String :=
  match dictGet info k with
  | some v => Except.ok v
  | none => Except.error (TupasError.missingFieldError k)

/-- Model of `b02k.declare_info`: build a `B02KInfo` from a decoded
dictionary, ignoring keys that are not among the nine attributes; fails
(Python `TypeError`) when a required key is absent. -/
def declare_info (info : List (String × String)) : Except TupasError B02KInfo := do
  let v1 ← reqField info "B02K_VERS"
  let v2 ← reqField info "B02K_TIMESTMP"
  let v3 ← reqField info "B02K_IDNBR"
  let v4 ← reqField info "B02K_STAMP"
  let v5 ← reqField info "B02K_CUSTNAME"
  let v6 ← reqField info "B02K_KEYVERS"
  let v7 ← reqField info "B02K_ALG"
  let v8 ← reqField info "B02K_CUSTID"
  let v9 ← reqField info "B02K_CUSTTYPE"
  return ⟨v1, v2, v3, v4, v5, v6, v7, v8, v9⟩

/-- Model of `b02k.calculate_signature`: concatenate the nine field values in
declared order, each followed by `&`, then the secret followed by `&`; the
upper-case hexadecimal SHA-256 of the UTF-8 bytes of that string. -/
def calculate_signature (b02kinfo : B02KInfo) (secret : String) : String :=
  let raw := b02kinfo.B02K_VERS ++ "&" ++ b02kinfo.B02K_TIMESTMP ++ "&" ++
    b02kinfo.B02K_IDNBR ++ "&" ++ b02kinfo.B02K_STAMP ++ "&" ++
    b02kinfo.B02K_CUSTNAME ++ "&" ++ b02kinfo.B02K_KEYVERS ++ "&" ++
    b02kinfo.B02K_ALG ++ "&" ++ b02kinfo.B02K_CUSTID ++ "&" ++
    b02kinfo.B02K_CUSTTYPE ++ "&" ++ secret ++ "&"
  strUpper (sha256_hexdigest (strBytes raw))

/-- Keep the grouped query values only when every name has exactly one value,
in insertion order; the first offending name raises `ValueError(v)` (the
loop body of `get_qs_dict`). -/
def collectSingles : List (String × List String) → Except TupasError (List (String × String))
  | [] => Except.ok []
  | (k, [v]) :: rest => (collectSingles rest).map (fun d => (k, v) :: d)
  | (_, vs) :: _ => Except.error (TupasError.duplicateFieldError vs)

/-- Model of `b02k.get_qs_dict`: `parse_qs` the query string and require a
single value per name. -/
def get_qs_dict (query : String) : Except TupasError (List (String × String)) :=
  collectSingles (parse_qs query)

/-- Model of `b02k.format_names`: Python `fullname.title().split(" ", 1)` —
one element when the title-cased name has no space, two otherwise. -/
def format_names (fullname : String) : List String :=
  match splitFirstSpace (titleStr fullname).data with
  | (a, none) => [a.asString]
  | (a, some b) => [a.asString, b.asString]

/-- Model of `b02k.build_success_hash`: the lower-case hexadecimal SHA-256 of
`firstname=<first>&lastname=<last>#<secret>`. -/
def build_success_hash (first last secret : String) : String :=
  sha256_hexdigest (strBytes ("firstname=" ++ first ++ "&lastname=" ++ last ++ "#" ++ secret))

/-- Model of `b02k.build_success_url`: unpack the formatted names (a one-element
list raises Python's unpacking `ValueError`, modelled as `unpackError`), hash
them with the output secret, and urlencode the three-field query. -/
def build_success_url (b02kinfo : B02KInfo) (secret : String) : Except TupasError String :=
  match format_names b02kinfo.B02K_CUSTNAME with
  | [first, last] =>
    let signature := build_success_hash first last secret
    Except.ok ("?" ++ urlencode [("firstname", first), ("lastname", last), ("hash", signature)])
  | _ => Except.error TupasError.unpackError

/-- Model of `b02k.get_redirect_url`: decode the URL's query, project the
protocol fields, recompute the signature, and compare it with the query's
`B02K_MAC` value; equal gives the success URL, different gives the error URL,
and decode or projection failures propagate. -/
def get_redirect_url (url inputsecret outputsecret error_url : String) :
    Except TupasError String := do
  let qs ← get_qs_dict (urlQuery url)
  let b02kinfo ← declare_info qs
  let signature := calculate_signature b02kinfo inputsecret
  match dictGet qs B02K_MAC with
  | none => Except.error (TupasError.missingFieldError B02K_MAC)
  | some mac =>
    if signature = mac then build_success_url b02kinfo outputsecret
    else return error_url

/-- The fixture record of the repository's tests. -/
def fixtureInfo : B02KInfo :=
  ⟨"0003", "50020181017141433899056", "2512408990", "20010125140015123456",
   "FIRST LAST", "0001", "03", "9984", "02"⟩

/-- The fixture record with the space-free customer name `FIRSTLAST`. -/
def noSpaceInfo : B02KInfo :=
  ⟨"0003", "50020181017141433899056", "2512408990", "20010125140015123456",
   "FIRSTLAST", "0001", "03", "9984", "02"⟩

/-- The fixture record with the space-free customer name `paulo`. -/
def pauloInfo : B02KInfo :=
  ⟨"0003", "50020181017141433899056", "2512408990", "20010125140015123456",
   "paulo", "0001", "03", "9984", "02"⟩

/-- The signed valid callback URL of the repository's tests. -/
def validUrl : String :=
  "http://someserver.com/?B02K_VERS=0003&B02K_TIMESTMP=50020181017141433899056&" ++
  "B02K_IDNBR=2512408990&B02K_STAMP=20010125140015123456&B02K_CUSTNAME=FIRST%20LAST&" ++
  "B02K_KEYVERS=0001&B02K_ALG=03&B02K_CUSTID=9984&B02K_CUSTTYPE=02&" ++
  "B02K_MAC=EBA959A76B87AE8996849E7C0C08D4AC44B053183BE12C0DAC2AD0C86F9F2542"

/-- The same callback URL with a corrupted signature field. -/
def invalidUrl : String :=
  "http://someserver.com/?B02K_VERS=0003&B02K_TIMESTMP=50020181017141433899056&" ++
  "B02K_IDNBR=2512408990&B02K_STAMP=20010125140015123456&B02K_CUSTNAME=FIRST%20LAST&" ++
  "B02K_KEYVERS=0001&B02K_ALG=03&B02K_CUSTID=9984&B02K_CUSTTYPE=02&" ++
  "B02K_MAC=INVALID_SIGNATURE"

/-- A correctly signed callback URL whose customer name contains no space
(`FIRSTLAST`); its `B02K_MAC` value is the signature the module itself
computes for these fields with secret `inputsecret`. -/
def noSpaceUrl : String :=
  "http://someserver.com/?B02K_VERS=0003&B02K_TIMESTMP=50020181017141433899056&" ++
  "B02K_IDNBR=2512408990&B02K_STAMP=20010125140015123456&B02K_CUSTNAME=FIRSTLAST&" ++
  "B02K_KEYVERS=0001&B02K_ALG=03&B02K_CUSTID=9984&B02K_CUSTTYPE=02&" ++
  "B02K_MAC=2BC62D1189E304F674D981050D40299931CCE0216AB9600B147975C77F59FAA6"

/-- A callback URL carrying the nine protocol fields but no signature field. -/
def noMacUrl : String :=
  "http://someserver.com/?B02K_VERS=0003&B02K_TIMESTMP=50020181017141433899056&" ++
  "B02K_IDNBR=2512408990&B02K_STAMP=20010125140015123456&B02K_CUSTNAME=FIRST%20LAST&" ++
  "B02K_KEYVERS=0001&B02K_ALG=03&B02K_CUSTID=9984&B02K_CUSTTYPE=02"

/-- The verification decision of the pipeline (the spec's `verify`): the
boolean outcome of the signature comparison that `get_redirect_url` branches
on, with the same decode, projection and signature-key failures. -/
def verify_decision (url inputsecret : String) : Except TupasError Bool := do
  let qs ← get_qs_dict (urlQuery url)
  let info ← declare_info qs
  match dictGet qs B02K_MAC with
  | none => Except.error (TupasError.missingFieldError B02K_MAC)
  | some mac => return (if calculate_signature info inputsecret = mac then true else false)

/-- A correctly signed callback URL whose customer name is the single word
`FIRST`; its `B02K_MAC` value is the signature the module itself computes for
these fields with secret `inputsecret`. -/
def firstNameUrl : String :=
  "http://someserver.com/?B02K_VERS=0003&B02K_TIMESTMP=50020181017141433899056&" ++
  "B02K_IDNBR=2512408990&B02K_STAMP=20010125140015123456&B02K_CUSTNAME=FIRST&" ++
  "B02K_KEYVERS=0001&B02K_ALG=03&B02K_CUSTID=9984&B02K_CUSTTYPE=02&" ++
  "B02K_MAC=0829F417B8962597E069EBA0659F85BDBE2BA878EDB231512E069FE8BBD85239"

/-- The decoded dictionary of the corrupted-signature test URL's query. -/
def invalidQs : List (String × String) :=
  [("B02K_VERS", "0003"), ("B02K_TIMESTMP", "50020181017141433899056"),
   ("B02K_IDNBR", "2512408990"), ("B02K_STAMP", "20010125140015123456"),
   ("B02K_CUSTNAME", "FIRST LAST"), ("B02K_KEYVERS", "0001"), ("B02K_ALG", "03"),
   ("B02K_CUSTID", "9984"), ("B02K_CUSTTYPE", "02"),
   ("B02K_MAC", "INVALID_SIGNATURE")]

/-- The decoded dictionary of the valid test URL's query. -/
def validQs : List (String × String) :=
  [("B02K_VERS", "0003"), ("B02K_TIMESTMP", "50020181017141433899056"),
   ("B02K_IDNBR", "2512408990"), ("B02K_STAMP", "20010125140015123456"),
   ("B02K_CUSTNAME", "FIRST LAST"), ("B02K_KEYVERS", "0001"), ("B02K_ALG", "03"),
   ("B02K_CUSTID", "9984"), ("B02K_CUSTTYPE", "02"),
   ("B02K_MAC", "EBA959A76B87AE8996849E7C0C08D4AC44B053183BE12C0DAC2AD0C86F9F2542")]

/-- The nine protocol pairs alone (no signature key). -/
def fixtureDict : List (String × String) :=
  [("B02K_VERS", "0003"), ("B02K_TIMESTMP", "50020181017141433899056"),
   ("B02K_IDNBR", "2512408990"), ("B02K_STAMP", "20010125140015123456"),
   ("B02K_CUSTNAME", "FIRST LAST"), ("B02K_KEYVERS", "0001"), ("B02K_ALG", "03"),
   ("B02K_CUSTID", "9984"), ("B02K_CUSTTYPE", "02")]

/-! ## Spec-side formulations -/

/-- The nine field values of a record in the protocol's declared order. -/
def b02kFieldValues (info : B02KInfo) : List String :=
  [info.B02K_VERS, info.B02K_TIMESTMP, info.B02K_IDNBR, info.B02K_STAMP,
   info.B02K_CUSTNAME, info.B02K_KEYVERS, info.B02K_ALG, info.B02K_CUSTID,
   info.B02K_CUSTTYPE]

/-- The inbound signature as the specification words it: the upper-case
hexadecimal SHA-256 digest of the UTF-8 bytes of the canonical string built
by concatenating the nine field values in declared order, each value followed
by the separator `&`, then the secret followed by `&`. -/
def calculate_signature_spec (info : B02KInfo) (secret : String) : String :=
  strUpper (sha256_hexdigest (strBytes
    ((b02kFieldValues info).foldr (fun v acc => v ++ "&" ++ acc) (secret ++ "&"))))

/-- Whether a character is a lower-case hexadecimal digit (a decimal digit or
one of `a`–`f`). -/
def isLowerHexDigit (c : Char) : Bool :=
  (48 ≤ c.toNat ∧ c.toNat ≤ 57) ∨ (97 ≤ c.toNat ∧ c.toNat ≤ 102)

/-- Whether a character is an upper-case hexadecimal digit (a decimal digit or
one of `A`–`F`). -/
def isUpperHexDigit (c : Char) : Bool :=
  (48 ≤ c.toNat ∧ c.toNat ≤ 57) ∨ (65 ≤ c.toNat ∧ c.toNat ≤ 70)

/-! ## Helper lemmas -/

theorem exceptBind_ok {ε α β : Type} (x : α) (f : α → Except ε β) :
    (Except.ok x >>= f) = f x := rfl

theorem exceptBind_error {ε α β : Type} (e : ε) (f : α → Except ε β) :
    ((Except.error e : Except ε α) >>= f) = Except.error e := rfl

theorem exceptMap_ok {ε α β : Type} (f : α → β) (x : α) :
    (f <$> (Except.ok x : Except ε α)) = Except.ok (f x) := rfl

theorem exceptMap_error {ε α β : Type} (f : α → β) (e : ε) :
    (f <$> (Except.error e : Except ε α)) = Except.error e := rfl

theorem exceptPure {ε α : Type} (x : α) :
    (pure x : Except ε α) = Except.ok x := rfl

theorem hexCharLower_isLowerHex {m : Nat} (h : m < 16) :
    isLowerHexDigit (hexCharLower m) = true := by
  revert h; revert m; decide

theorem toUpper_hexCharLower_isUpperHex {m : Nat} (h : m < 16) :
    isUpperHexDigit (Char.toUpper (hexCharLower m)) = true := by
  revert h; revert m; decide

theorem toBE_mem_lt {n v b : Nat} (h : b ∈ toBE n v) : b < 256 := by
  simp only [toBE, List.mem_map] at h
  obtain ⟨i, _, rfl⟩ := h
  exact Nat.mod_lt _ (by norm_num)

theorem toBE_length (n v : Nat) : (toBE n v).length = n := by
  simp [toBE]

theorem bytesToHexLower_all {bs : List Nat} (h : ∀ b ∈ bs, b < 256) :
    ∀ c ∈ (bytesToHexLower bs).data, isLowerHexDigit c = true := by
  induction bs with
  | nil => intro c hc; simp [bytesToHexLower, List.asString] at hc
  | cons b rest ih =>
    intro c hc
    simp only [bytesToHexLower, List.asString, List.foldr_cons, List.mem_cons] at hc ih ⊢
    rcases hc with rfl | rfl | hc
    · exact hexCharLower_isLowerHex (Nat.div_lt_of_lt_mul (h b (by simp)))
    · exact hexCharLower_isLowerHex (Nat.mod_lt _ (by norm_num))
    · exact ih (fun x hx => h x (by simp [hx])) c hc

theorem bytesToHexLower_length (bs : List Nat) :
    (bytesToHexLower bs).length = 2 * bs.length := by
  induction bs with
  | nil => rfl
  | cons b rest ih =>
    have step : (bytesToHexLower (b :: rest)).length = (bytesToHexLower rest).length + 2 := rfl
    rw [step, ih, List.length_cons]
    ring

theorem sha256Digest_mem_lt {msg : List Nat} : ∀ b ∈ sha256Digest msg, b < 256 := by
  intro b hb
  simp only [sha256Digest, List.foldr_cons, List.foldr_nil, List.append_nil,
    List.mem_append] at hb
  rcases hb with h | h | h | h | h | h | h | h <;> exact toBE_mem_lt h

theorem sha256Digest_length (msg : List Nat) : (sha256Digest msg).length = 32 := by
  simp [sha256Digest, toBE_length]

theorem sha256_hexdigest_length (msg : List Nat) : (sha256_hexdigest msg).length = 64 := by
  simp [sha256_hexdigest, bytesToHexLower_length, sha256Digest_length]

theorem sha256_hexdigest_lower (msg : List Nat) :
    ∀ c ∈ (sha256_hexdigest msg).data, isLowerHexDigit c = true :=
  bytesToHexLower_all (fun _ hb => sha256Digest_mem_lt _ hb)

theorem strUpper_length (s : String) : (strUpper s).length = s.length := by
  show (s.data.map Char.toUpper).length = s.data.length
  simp

/-- Reading off the code point of a character built from a scalar value below
the surrogate range. -/
theorem char_toNat_ofNat {n : Nat} (h : n < 55296) : (Char.ofNat n).toNat = n := by
  have hv : n.isValidChar := Or.inl h
  simp only [Char.ofNat, hv, dif_pos]
  rfl

theorem strUpper_hex {s : String} (h : ∀ c ∈ s.data, isLowerHexDigit c = true) :
    ∀ c ∈ (strUpper s).data, isUpperHexDigit c = true := by
  intro c hc
  simp only [strUpper, List.asString, List.mem_map] at hc
  obtain ⟨c', hc', rfl⟩ := hc
  have hlow := h c' hc'
  simp only [isLowerHexDigit, decide_eq_true_eq] at hlow
  have ht : c'.toUpper =
      if c'.toNat ≥ 97 ∧ c'.toNat ≤ 122 then Char.ofNat (c'.toNat - 32) else c' := rfl
  have hup : (48 ≤ c'.toUpper.toNat ∧ c'.toUpper.toNat ≤ 57) ∨
      (65 ≤ c'.toUpper.toNat ∧ c'.toUpper.toNat ≤ 70) := by
    rw [ht]
    split
    case isTrue hr => rw [char_toNat_ofNat (by omega)]; omega
    case isFalse hr => omega
  simpa [isUpperHexDigit, decide_eq_true_eq] using hup

/-! ## The claims -/

/-- C2: `calculate_signature` is the upper-case hexadecimal SHA-256 digest of
the UTF-8 bytes of the canonical string of the nine ordered field values each
followed by `&` and the secret followed by `&`; its output is 64 upper-case
hexadecimal characters, and on the fixture record with secret `inputsecret`
it equals the protocol test vector. -/
theorem c2_calculate_signature_canonical :
    (∀ (info : B02KInfo) (secret : String),
       calculate_signature info secret = calculate_signature_spec info secret) ∧
    (∀ (info : B02KInfo) (secret : String),
       (calculate_signature info secret).length = 64 ∧
       ∀ c ∈ (calculate_signature info secret).data, isUpperHexDigit c = true) ∧
    calculate_signature fixtureInfo "inputsecret" =
      "EBA959A76B87AE8996849E7C0C08D4AC44B053183BE12C0DAC2AD0C86F9F2542" := by
  refine ⟨?_, ?_, ?_⟩
  · intro info secret
    unfold calculate_signature calculate_signature_spec b02kFieldValues
    simp only [List.foldr_cons, List.foldr_nil, String.append_assoc, String.append_empty]
  · intro info secret
    constructor
    · simpa [calculate_signature, strUpper_length] using
        sha256_hexdigest_length (strBytes _)
    · exact fun c hc => strUpper_hex (sha256_hexdigest_lower _) c hc
  · decide

/-- C3: `build_success_hash` is the lower-case hexadecimal SHA-256 digest of
the canonical string `firstname=<First>&lastname=<Last>#<secret>` — the `#`
precedes the secret and there is no trailing separator; its output is 64
lower-case hexadecimal characters, and on `("First", "Last", "outputsecret")`
it equals the test vector. -/
theorem c3_build_success_hash_canonical :
    (∀ (first last secret : String),
       build_success_hash first last secret =
         sha256_hexdigest (strBytes
           ("firstname=" ++ first ++ "&lastname=" ++ last ++ "#" ++ secret))) ∧
    (∀ (first last secret : String),
       (build_success_hash first last secret).length = 64 ∧
       ∀ c ∈ (build_success_hash first last secret).data, isLowerHexDigit c = true) ∧
    build_success_hash "First" "Last" "outputsecret" =
      "4f6536ca2a23592d9037a4707bb44980b9bd2d4250fc1c833812068ccb000712" := by
  refine ⟨fun _ _ _ => rfl,
    fun first last secret => ⟨sha256_hexdigest_length _, sha256_hexdigest_lower _⟩,
    by decide⟩

/-- C2 witness: the canonical-string equation at the fixture record, and the
upper-case-hexadecimal character property at the leading digest character. -/
theorem c2_calculate_signature_witness :
    calculate_signature fixtureInfo "inputsecret" =
      calculate_signature_spec fixtureInfo "inputsecret" ∧
    isUpperHexDigit 'E' = true :=
  ⟨c2_calculate_signature_canonical.1 fixtureInfo "inputsecret",
   (c2_calculate_signature_canonical.2.1 fixtureInfo "inputsecret").2 'E' (by decide)⟩

/-- C3 witness: the canonical-string equation at the fixture names, and the
lower-case-hexadecimal character property at the leading digest character. -/
theorem c3_build_success_hash_witness :
    build_success_hash "First" "Last" "outputsecret" =
      sha256_hexdigest (strBytes
        ("firstname=" ++ "First" ++ "&lastname=" ++ "Last" ++ "#" ++ "outputsecret")) ∧
    isLowerHexDigit '4' = true :=
  ⟨c3_build_success_hash_canonical.1 "First" "Last" "outputsecret",
   (c3_build_success_hash_canonical.2.1 "First" "Last" "outputsecret").2 '4' (by decide)⟩

/-- Lower-casing a character never produces a space from a non-space. -/
theorem toLower_ne_space {c : Char} (h : c ≠ ' ') : c.toLower ≠ ' ' := by
  show (if c.toNat ≥ 65 ∧ c.toNat ≤ 90 then Char.ofNat (c.toNat + 32) else c) ≠ ' '
  split
  case isTrue hr =>
    intro he
    have hn := congrArg Char.toNat he
    rw [char_toNat_ofNat (by omega)] at hn
    have hsp : Char.toNat ' ' = 32 := rfl
    omega
  case isFalse => exact h

/-- Upper-casing a character never produces a space from a non-space. -/
theorem toUpper_ne_space {c : Char} (h : c ≠ ' ') : c.toUpper ≠ ' ' := by
  show (if c.toNat ≥ 97 ∧ c.toNat ≤ 122 then Char.ofNat (c.toNat - 32) else c) ≠ ' '
  split
  case isTrue hr =>
    intro he
    have hn := congrArg Char.toNat he
    rw [char_toNat_ofNat (by omega)] at hn
    have hsp : Char.toNat ' ' = 32 := rfl
    omega
  case isFalse => exact h

/-- Title-casing a character never produces a space from a non-space. -/
theorem titleChar_ne_space {b : Bool} {c : Char} (h : c ≠ ' ') : titleChar b c ≠ ' ' := by
  unfold titleChar
  split
  · split
    · exact toLower_ne_space h
    · exact toUpper_ne_space h
  · exact h

/-- Title-casing a character list introduces no space. -/
theorem titleGo_no_space {cs : List Char} (h : ' ' ∉ cs) : ∀ b, ' ' ∉ titleGo b cs := by
  induction cs with
  | nil => intro b; simp [titleGo]
  | cons c rest ih =>
    intro b
    simp only [List.mem_cons, not_or] at h
    simp only [titleGo, List.mem_cons, not_or]
    exact ⟨fun he => titleChar_ne_space (fun hc => h.1 hc.symm) he.symm, ih h.2 c.isAlpha⟩

/-- Splitting a space-free character list at the first space finds none. -/
theorem splitFirstSpace_no_space {cs : List Char} (h : ' ' ∉ cs) :
    splitFirstSpace cs = (cs, none) := by
  induction cs with
  | nil => rfl
  | cons c rest ih =>
    simp only [List.mem_cons, not_or] at h
    have hc : ¬ c = ' ' := fun heq => h.1 heq.symm
    simp [splitFirstSpace, hc, ih h.2]

/-- C5 (amended): `formatNames` title-cases and splits at the first space only,
as on the two spec examples; but a customer name containing no space makes
`formatNames` return a single-element list and the Redirect Builder then fails
with an unpacking error — it does not produce an empty last-name component. -/
theorem c5_format_names_amended :
    format_names "paulo chaves" = ["Paulo", "Chaves"] ∧
    format_names "paulo r m chaves" = ["Paulo", "R M Chaves"] ∧
    (∀ s : String, ' ' ∉ s.data → ∃ x, format_names s = [x]) ∧
    (∀ (info : B02KInfo) (secret x : String),
       format_names info.B02K_CUSTNAME = [x] →
       build_success_url info secret = Except.error TupasError.unpackError) := by
  refine ⟨by decide, by decide, ?_, ?_⟩
  · intro s hs
    have h2 : ' ' ∉ (titleStr s).data := titleGo_no_space hs false
    refine ⟨(titleStr s).data.asString, ?_⟩
    unfold format_names
    rw [splitFirstSpace_no_space h2]
  · intro info secret x hfmt
    simp [build_success_url, hfmt]

/-- C5 counterexample: on the protocol fields with the space-free customer
name `FIRSTLAST`, the Redirect Builder fails with an unpacking error instead
of producing a first-name and an empty last-name component. -/
theorem c5_no_space_counterexample :
    build_success_url noSpaceInfo "outputsecret" = Except.error TupasError.unpackError := rfl

/-- C5 witness: concrete instances of the two guarded parts of the amended
claim. -/
theorem c5_format_names_witness :
    (∃ x, format_names "paulo" = [x]) ∧
    build_success_url pauloInfo "outputsecret" = Except.error TupasError.unpackError :=
  ⟨c5_format_names_amended.2.2.1 "paulo" (by decide),
   c5_format_names_amended.2.2.2 pauloInfo "outputsecret" "Paulo" (by decide)⟩

/-- `addPair` keeps every value list non-empty. -/
theorem addPair_nonempty {acc : List (String × List String)} {kv : String × String}
    (h : ∀ p ∈ acc, p.2 ≠ []) : ∀ p ∈ addPair acc kv, p.2 ≠ [] := by
  induction acc with
  | nil =>
    intro p hp
    simp only [addPair, List.mem_singleton] at hp
    subst hp
    simp
  | cons q rest ih =>
    obtain ⟨k, vs⟩ := q
    intro p hp
    simp only [addPair] at hp
    split at hp
    · rcases List.mem_cons.mp hp with rfl | hmem
      · simp
      · exact h _ (List.mem_cons_of_mem _ hmem)
    · rcases List.mem_cons.mp hp with rfl | hmem
      · exact h _ (List.mem_cons_self _ _)
      · exact ih (fun q hq => h q (List.mem_cons_of_mem _ hq)) _ hmem

/-- Folding `addPair` keeps every value list non-empty. -/
theorem foldl_addPair_nonempty (ps : List (String × String)) :
    ∀ acc, (∀ p ∈ acc, p.2 ≠ []) → ∀ p ∈ ps.foldl addPair acc, p.2 ≠ [] := by
  induction ps with
  | nil => intro acc h; simpa using h
  | cons kv rest ih =>
    intro acc h
    exact ih (addPair acc kv) (addPair_nonempty h)

/-- Every value list that `parse_qs` groups is non-empty. -/
theorem parse_qs_nonempty (qs : String) : ∀ p ∈ parse_qs qs, p.2 ≠ [] :=
  foldl_addPair_nonempty (parse_qsl qs) [] (by simp)

/-- `collectSingles` fails exactly on a grouping with a value list that does
not have exactly one element, and then with a `duplicateFieldError`. -/
theorem collectSingles_error_iff (g : List (String × List String)) :
    (∃ e, collectSingles g = Except.error e) ↔ ∃ p ∈ g, p.2.length ≠ 1 := by
  induction g with
  | nil => simp [collectSingles]
  | cons q rest ih =>
    obtain ⟨k, vs⟩ := q
    match vs with
    | [] => simp [collectSingles]
    | [v] =>
      simp only [collectSingles, List.mem_cons]
      constructor
      · rintro ⟨e, he⟩
        cases hcr : collectSingles rest with
        | ok d => rw [hcr] at he; simp [Except.map] at he
        | error e' =>
          obtain ⟨p, hp, hlen⟩ := ih.mp ⟨e', hcr⟩
          exact ⟨p, Or.inr hp, hlen⟩
      · rintro ⟨p, hp | hp, hlen⟩
        · subst hp; simp at hlen
        · obtain ⟨e, he⟩ := ih.mpr ⟨p, hp, hlen⟩
          rw [he]
          exact ⟨e, rfl⟩
    | v1 :: v2 :: vs' =>
      simp only [collectSingles, List.mem_cons]
      exact ⟨fun _ => ⟨(k, v1 :: v2 :: vs'), Or.inl rfl, by simp⟩,
        fun _ => ⟨TupasError.duplicateFieldError (v1 :: v2 :: vs'), rfl⟩⟩

/-- C6 (amended): `decodeQuery` maps `name=paulo` to the singleton dictionary
and fails with `DuplicateFieldError` exactly when some key ends up with two or
more values; a key supplied with a blank value or no value is silently dropped
by the query parser (it does not make decoding fail). -/
theorem c6_get_qs_dict_amended :
    get_qs_dict "name=paulo" = Except.ok [("name", "paulo")] ∧
    get_qs_dict "name=paulo&name=chaves" =
      Except.error (TupasError.duplicateFieldError ["paulo", "chaves"]) ∧
    get_qs_dict "name=" = Except.ok [] ∧
    get_qs_dict "name" = Except.ok [] ∧
    (∀ query : String,
       (∃ e, get_qs_dict query = Except.error e) ↔
       ∃ p ∈ parse_qs query, 2 ≤ p.2.length) := by
  refine ⟨rfl, rfl, rfl, rfl, ?_⟩
  intro query
  rw [get_qs_dict.eq_1, collectSingles_error_iff]
  constructor
  · rintro ⟨p, hp, hlen⟩
    have hne := parse_qs_nonempty query p hp
    have : p.2.length ≠ 0 := fun h0 => hne (List.length_eq_zero.mp h0)
    exact ⟨p, hp, by omega⟩
  · rintro ⟨p, hp, hlen⟩
    exact ⟨p, hp, by omega⟩

/-- C6 counterexample: a key present with zero values — the blank-valued
`name=` — does not raise `DuplicateFieldError`; the pair is dropped and
decoding succeeds with the empty dictionary. -/
theorem c6_zero_values_counterexample : get_qs_dict "name=" = Except.ok [] := rfl

/-- C6 witness: the duplicated key of the spec's own example satisfies the
failure characterization. -/
theorem c6_get_qs_dict_witness :
    ∃ p ∈ parse_qs "name=paulo&name=chaves", 2 ≤ p.2.length :=
  (c6_get_qs_dict_amended.2.2.2.2 "name=paulo&name=chaves").mp
    ⟨TupasError.duplicateFieldError ["paulo", "chaves"], rfl⟩

/-- C7: `declare_info` depends only on the nine recognized keys — two
dictionaries agreeing on them project identically, and prepending the
signature key (not one of the nine) never changes the result — and it fails
with `MissingFieldError` naming an absent required key whenever one of the
nine is missing. -/
theorem c7_declare_info_projection :
    (∀ d1 d2 : List (String × String),
       (∀ k ∈ B02K_KEYS, dictGet d1 k = dictGet d2 k) →
       declare_info d1 = declare_info d2) ∧
    (∀ (d : List (String × String)) (v : String),
       declare_info ((B02K_MAC, v) :: d) = declare_info d) ∧
    (∀ d : List (String × String),
       (∃ k ∈ B02K_KEYS, dictGet d k = none) →
       ∃ k, k ∈ B02K_KEYS ∧ dictGet d k = none ∧
         declare_info d = Except.error (TupasError.missingFieldError k)) := by
  have agree : ∀ d1 d2 : List (String × String),
      (∀ k ∈ B02K_KEYS, dictGet d1 k = dictGet d2 k) →
      declare_info d1 = declare_info d2 := by
    intro d1 d2 h
    have e1 := h "B02K_VERS" (by simp [B02K_KEYS])
    have e2 := h "B02K_TIMESTMP" (by simp [B02K_KEYS])
    have e3 := h "B02K_IDNBR" (by simp [B02K_KEYS])
    have e4 := h "B02K_STAMP" (by simp [B02K_KEYS])
    have e5 := h "B02K_CUSTNAME" (by simp [B02K_KEYS])
    have e6 := h "B02K_KEYVERS" (by simp [B02K_KEYS])
    have e7 := h "B02K_ALG" (by simp [B02K_KEYS])
    have e8 := h "B02K_CUSTID" (by simp [B02K_KEYS])
    have e9 := h "B02K_CUSTTYPE" (by simp [B02K_KEYS])
    simp only [declare_info, reqField, e1, e2, e3, e4, e5, e6, e7, e8, e9]
  refine ⟨agree, ?_, ?_⟩
  · intro d v
    apply agree
    intro k hk
    have hne : ("B02K_MAC" : String) ≠ k := by
      simp only [B02K_KEYS, List.mem_cons, List.not_mem_nil, or_false] at hk
      rcases hk with rfl | rfl | rfl | rfl | rfl | rfl | rfl | rfl | rfl <;> decide
    simp [dictGet, B02K_MAC, hne]
  · intro d hex
    cases h1 : dictGet d "B02K_VERS" with
    | none =>
      exact ⟨"B02K_VERS", by simp [B02K_KEYS], h1,
        by simp [declare_info, reqField, h1, exceptBind_ok, exceptBind_error, exceptMap_ok, exceptMap_error, exceptPure]⟩
    | some v1 =>
    cases h2 : dictGet d "B02K_TIMESTMP" with
    | none =>
      exact ⟨"B02K_TIMESTMP", by simp [B02K_KEYS], h2,
        by simp [declare_info, reqField, h1, h2, exceptBind_ok, exceptBind_error, exceptMap_ok, exceptMap_error, exceptPure]⟩
    | some v2 =>
    cases h3 : dictGet d "B02K_IDNBR" with
    | none =>
      exact ⟨"B02K_IDNBR", by simp [B02K_KEYS], h3,
        by simp [declare_info, reqField, h1, h2, h3, exceptBind_ok, exceptBind_error, exceptMap_ok, exceptMap_error, exceptPure]⟩
    | some v3 =>
    cases h4 : dictGet d "B02K_STAMP" with
    | none =>
      exact ⟨"B02K_STAMP", by simp [B02K_KEYS], h4,
        by simp [declare_info, reqField, h1, h2, h3, h4, exceptBind_ok, exceptBind_error, exceptMap_ok, exceptMap_error, exceptPure]⟩
    | some v4 =>
    cases h5 : dictGet d "B02K_CUSTNAME" with
    | none =>
      exact ⟨"B02K_CUSTNAME", by simp [B02K_KEYS], h5,
        by simp [declare_info, reqField, h1, h2, h3, h4, h5, exceptBind_ok, exceptBind_error, exceptMap_ok, exceptMap_error, exceptPure]⟩
    | some v5 =>
    cases h6 : dictGet d "B02K_KEYVERS" with
    | none =>
      exact ⟨"B02K_KEYVERS", by simp [B02K_KEYS], h6,
        by simp [declare_info, reqField, h1, h2, h3, h4, h5, h6, exceptBind_ok, exceptBind_error, exceptMap_ok, exceptMap_error, exceptPure]⟩
    | some v6 =>
    cases h7 : dictGet d "B02K_ALG" with
    | none =>
      exact ⟨"B02K_ALG", by simp [B02K_KEYS], h7,
        by simp [declare_info, reqField, h1, h2, h3, h4, h5, h6, h7, exceptBind_ok, exceptBind_error, exceptMap_ok, exceptMap_error, exceptPure]⟩
    | some v7 =>
    cases h8 : dictGet d "B02K_CUSTID" with
    | none =>
      exact ⟨"B02K_CUSTID", by simp [B02K_KEYS], h8,
        by simp [declare_info, reqField, h1, h2, h3, h4, h5, h6, h7, h8, exceptBind_ok, exceptBind_error, exceptMap_ok, exceptMap_error, exceptPure]⟩
    | some v8 =>
    cases h9 : dictGet d "B02K_CUSTTYPE" with
    | none =>
      exact ⟨"B02K_CUSTTYPE", by simp [B02K_KEYS], h9,
        by simp [declare_info, reqField, h1, h2, h3, h4, h5, h6, h7, h8, h9, exceptBind_ok, exceptBind_error, exceptMap_ok, exceptMap_error, exceptPure]⟩
    | some v9 =>
      obtain ⟨k, hk, hnone⟩ := hex
      simp only [B02K_KEYS, List.mem_cons, List.not_mem_nil, or_false] at hk
      rcases hk with rfl | rfl | rfl | rfl | rfl | rfl | rfl | rfl | rfl <;>
        simp_all

/-- C7 witness: an unrecognized key and the signature key are ignored, and
the empty dictionary fails with a `MissingFieldError`. -/
theorem c7_declare_info_witness :
    declare_info (("Invalid-Key", "Invalid-Value") :: fixtureDict) = declare_info fixtureDict ∧
    declare_info ((B02K_MAC, "X") :: fixtureDict) = declare_info fixtureDict ∧
    ∃ k, k ∈ B02K_KEYS ∧ dictGet ([] : List (String × String)) k = none ∧
      declare_info [] = Except.error (TupasError.missingFieldError k) :=
  ⟨c7_declare_info_projection.1 _ _ (by decide),
   c7_declare_info_projection.2.1 fixtureDict "X",
   c7_declare_info_projection.2.2 [] ⟨"B02K_VERS", by simp [B02K_KEYS], rfl⟩⟩

/-- C8: when the decoded query projects the nine protocol fields but lacks the
signature key, `get_redirect_url` fails with the spec's `MissingFieldError`
for the signature key — it returns neither a success redirect nor the
caller-supplied error URL. -/
theorem c8_missing_signature_key :
    ∀ (url inputsecret outputsecret error_url : String)
      (qs : List (String × String)) (info : B02KInfo),
      get_qs_dict (urlQuery url) = Except.ok qs →
      declare_info qs = Except.ok info →
      dictGet qs B02K_MAC = none →
      get_redirect_url url inputsecret outputsecret error_url =
        Except.error (TupasError.missingFieldError B02K_MAC) := by
  intro url i o e qs info h1 h2 h3
  simp [get_redirect_url, h1, h2, h3, exceptBind_ok, exceptBind_error, exceptMap_ok, exceptMap_error, exceptPure]

/-- C8 witness: the fixture query without its `B02K_MAC` pair. -/
theorem c8_missing_signature_key_witness :
    get_redirect_url noMacUrl "inputsecret" "outputsecret" "/error/" =
      Except.error (TupasError.missingFieldError B02K_MAC) :=
  c8_missing_signature_key noMacUrl "inputsecret" "outputsecret" "/error/"
    fixtureDict fixtureInfo rfl rfl rfl

/-- C10: decoding an empty query string succeeds with the empty dictionary,
so a URL with no query component makes `get_redirect_url` fail with a
missing-field error — it returns neither redirect. -/
theorem c10_empty_query :
    get_qs_dict "" = Except.ok [] ∧
    ∀ (url inputsecret outputsecret error_url : String),
      urlQuery url = "" →
      get_redirect_url url inputsecret outputsecret error_url =
        Except.error (TupasError.missingFieldError "B02K_VERS") := by
  refine ⟨rfl, ?_⟩
  intro url i o e h
  have hq : get_qs_dict "" = Except.ok [] := rfl
  have hd : declare_info [] = Except.error (TupasError.missingFieldError "B02K_VERS") := rfl
  simp [get_redirect_url, h, hq, hd, exceptBind_ok, exceptBind_error, exceptMap_ok, exceptMap_error, exceptPure]

/-- C10 witness: the test host URL with no query component. -/
theorem c10_empty_query_witness :
    get_redirect_url "http://someserver.com/" "inputsecret" "outputsecret" "/error/" =
      Except.error (TupasError.missingFieldError "B02K_VERS") :=
  c10_empty_query.2 "http://someserver.com/" "inputsecret" "outputsecret" "/error/" rfl

/-- C1 (amended): when a URL's query decodes to the nine protocol fields plus
the signature key set to `calculate_signature` of those fields and the input
secret, verification always succeeds: `get_redirect_url` never takes the
error-URL branch — it returns the signed success redirect when the title-cased
customer name contains a space, and fails with an unpacking error (rather than
returning either redirect) when it does not. -/
theorem c1_roundtrip_amended :
    ∀ (url inputsecret outputsecret error_url : String)
      (qs : List (String × String)) (fields : B02KInfo),
      get_qs_dict (urlQuery url) = Except.ok qs →
      declare_info qs = Except.ok fields →
      dictGet qs B02K_MAC = some (calculate_signature fields inputsecret) →
      (∀ first last : String, format_names fields.B02K_CUSTNAME = [first, last] →
        get_redirect_url url inputsecret outputsecret error_url =
          Except.ok ("?" ++ urlencode [("firstname", first), ("lastname", last),
            ("hash", build_success_hash first last outputsecret)])) ∧
      (∀ x : String, format_names fields.B02K_CUSTNAME = [x] →
        get_redirect_url url inputsecret outputsecret error_url =
          Except.error TupasError.unpackError) := by
  intro url i o e qs fields h1 h2 h3
  constructor
  · intro first last hfmt
    simp [get_redirect_url, h1, h2, h3, build_success_url, hfmt,
      exceptBind_ok, exceptBind_error, exceptMap_ok, exceptMap_error, exceptPure]
  · intro x hfmt
    simp [get_redirect_url, h1, h2, h3, build_success_url, hfmt,
      exceptBind_ok, exceptBind_error, exceptMap_ok, exceptMap_error, exceptPure]

/-- C1 counterexample: a URL carrying nine fields (customer name `FIRSTLAST`,
no space) and the matching signature, on which `get_redirect_url` returns
neither the success redirect nor the error URL — it fails with an unpacking
error, so signing then verifying does not always produce the success
redirect. -/
theorem c1_roundtrip_counterexample :
    get_redirect_url noSpaceUrl "inputsecret" "outputsecret" "/error/" =
      Except.error TupasError.unpackError := rfl

/-- C1 witness: the repository's valid test URL round-trips to the signed
success redirect. -/
theorem c1_roundtrip_witness :
    get_redirect_url validUrl "inputsecret" "outputsecret" "/error/" =
      Except.ok ("?" ++ urlencode [("firstname", "First"), ("lastname", "Last"),
        ("hash", build_success_hash "First" "Last" "outputsecret")]) :=
  (c1_roundtrip_amended validUrl "inputsecret" "outputsecret" "/error/" validQs fixtureInfo
    rfl rfl rfl).1 "First" "Last" rfl

/-- C4 (amended): a recomputed signature differing from the query's signature
value resolves to the caller-supplied error URL unchanged; a decode error or a
projection error propagates to the caller and is never mapped to the error
redirect; and on verification success the result is the success redirect query
`?firstname=<First>&lastname=<Last>&hash=<hash>` with the keys in that order
when the title-cased customer name contains a space, while a space-free name
makes the call fail with an unpacking error instead. -/
theorem c4_redirect_decision_amended :
    (∀ (url i o e mac : String) (qs : List (String × String)) (info : B02KInfo),
       get_qs_dict (urlQuery url) = Except.ok qs →
       declare_info qs = Except.ok info →
       dictGet qs B02K_MAC = some mac →
       calculate_signature info i ≠ mac →
       get_redirect_url url i o e = Except.ok e) ∧
    (∀ (url i o e : String) (err : TupasError),
       get_qs_dict (urlQuery url) = Except.error err →
       get_redirect_url url i o e = Except.error err) ∧
    (∀ (url i o e : String) (qs : List (String × String)) (err : TupasError),
       get_qs_dict (urlQuery url) = Except.ok qs →
       declare_info qs = Except.error err →
       get_redirect_url url i o e = Except.error err) ∧
    (∀ (url i o e mac first last : String) (qs : List (String × String)) (info : B02KInfo),
       get_qs_dict (urlQuery url) = Except.ok qs →
       declare_info qs = Except.ok info →
       dictGet qs B02K_MAC = some mac →
       calculate_signature info i = mac →
       format_names info.B02K_CUSTNAME = [first, last] →
       get_redirect_url url i o e =
         Except.ok ("?" ++ urlencode [("firstname", first), ("lastname", last),
           ("hash", build_success_hash first last o)])) := by
  refine ⟨?_, ?_, ?_, ?_⟩
  · intro url i o e mac qs info h1 h2 h3 hne
    simp [get_redirect_url, h1, h2, h3, hne,
      exceptBind_ok, exceptBind_error, exceptMap_ok, exceptMap_error, exceptPure]
  · intro url i o e err h1
    simp [get_redirect_url, h1,
      exceptBind_ok, exceptBind_error, exceptMap_ok, exceptMap_error, exceptPure]
  · intro url i o e qs err h1 h2
    simp [get_redirect_url, h1, h2,
      exceptBind_ok, exceptBind_error, exceptMap_ok, exceptMap_error, exceptPure]
  · intro url i o e mac first last qs info h1 h2 h3 hsig hfmt
    simp [get_redirect_url, h1, h2, h3, hsig, build_success_url, hfmt,
      exceptBind_ok, exceptBind_error, exceptMap_ok, exceptMap_error, exceptPure]

/-- C4 counterexample: a correctly signed URL whose customer name `FIRST` has
no space; verification succeeds, yet the result is neither the success
redirect query string nor the error URL — the call fails with an unpacking
error. -/
theorem c4_redirect_decision_counterexample :
    get_redirect_url firstNameUrl "inputsecret" "outputsecret" "/error/" =
      Except.error TupasError.unpackError := rfl

/-- C4 witness: the corrupted-signature test URL resolves to the error URL,
decode and projection failures propagate, and the valid test URL resolves to
the ordered success redirect. -/
theorem c4_redirect_decision_witness :
    get_redirect_url invalidUrl "inputsecret" "outputsecret" "/error/" =
      Except.ok "/error/" ∧
    get_redirect_url "http://someserver.com/?name=paulo&name=chaves" "i" "o" "/error/" =
      Except.error (TupasError.duplicateFieldError ["paulo", "chaves"]) ∧
    get_redirect_url "http://someserver.com/?name=paulo" "i" "o" "/error/" =
      Except.error (TupasError.missingFieldError "B02K_VERS") ∧
    get_redirect_url validUrl "inputsecret" "outputsecret" "/error/" =
      Except.ok ("?" ++ urlencode [("firstname", "First"), ("lastname", "Last"),
        ("hash", build_success_hash "First" "Last" "outputsecret")]) :=
  ⟨c4_redirect_decision_amended.1 invalidUrl "inputsecret" "outputsecret" "/error/"
      "INVALID_SIGNATURE" invalidQs fixtureInfo rfl rfl rfl (by decide),
   c4_redirect_decision_amended.2.1 "http://someserver.com/?name=paulo&name=chaves"
      "i" "o" "/error/" (TupasError.duplicateFieldError ["paulo", "chaves"]) rfl,
   c4_redirect_decision_amended.2.2.1 "http://someserver.com/?name=paulo"
      "i" "o" "/error/" [("name", "paulo")] (TupasError.missingFieldError "B02K_VERS")
      rfl rfl,
   c4_redirect_decision_amended.2.2.2 validUrl "inputsecret" "outputsecret" "/error/"
      "EBA959A76B87AE8996849E7C0C08D4AC44B053183BE12C0DAC2AD0C86F9F2542"
      "First" "Last" validQs fixtureInfo rfl rfl rfl (by decide) rfl⟩

/-- C9: `get_redirect_url` does not read its unused parameters — two calls
agreeing on the URL, the input secret and the output secret give equal results
whenever the signature verifies, however the error URLs differ; and whenever
the signature does not verify, each call returns exactly its own error URL,
however the output secrets differ. -/
theorem c9_unused_parameter_independence :
    ∀ (url inputsecret : String),
      (∀ outputsecret e1 e2 : String,
        verify_decision url inputsecret = Except.ok true →
        get_redirect_url url inputsecret outputsecret e1 =
          get_redirect_url url inputsecret outputsecret e2) ∧
      (∀ o1 o2 error_url : String,
        verify_decision url inputsecret = Except.ok false →
        get_redirect_url url inputsecret o1 error_url = Except.ok error_url ∧
        get_redirect_url url inputsecret o2 error_url = Except.ok error_url) := by
  intro url i
  constructor
  · intro o e1 e2 hv
    cases hqs : get_qs_dict (urlQuery url) with
    | error err => simp [verify_decision, hqs, exceptBind_error] at hv
    | ok qs =>
      cases hinfo : declare_info qs with
      | error err =>
        simp [verify_decision, hqs, hinfo, exceptBind_ok, exceptBind_error] at hv
      | ok info =>
        cases hmac : dictGet qs B02K_MAC with
        | none =>
          simp [verify_decision, hqs, hinfo, hmac, exceptBind_ok, exceptBind_error] at hv
        | some mac =>
          by_cases hsig : calculate_signature info i = mac
          · simp [get_redirect_url, hqs, hinfo, hmac, hsig, exceptBind_ok]
          · simp [verify_decision, hqs, hinfo, hmac, hsig, exceptBind_ok, exceptPure] at hv
  · intro o1 o2 e hv
    cases hqs : get_qs_dict (urlQuery url) with
    | error err => simp [verify_decision, hqs, exceptBind_error] at hv
    | ok qs =>
      cases hinfo : declare_info qs with
      | error err =>
        simp [verify_decision, hqs, hinfo, exceptBind_ok, exceptBind_error] at hv
      | ok info =>
        cases hmac : dictGet qs B02K_MAC with
        | none =>
          simp [verify_decision, hqs, hinfo, hmac, exceptBind_ok, exceptBind_error] at hv
        | some mac =>
          by_cases hsig : calculate_signature info i = mac
          · simp [verify_decision, hqs, hinfo, hmac, hsig, exceptBind_ok, exceptPure] at hv
          · constructor <;>
              simp [get_redirect_url, hqs, hinfo, hmac, hsig, exceptBind_ok, exceptPure]

/-- C9 witness: on the valid test URL the result ignores the error URL, and on
the corrupted-signature test URL each call returns its own error URL whatever
the output secret. -/
theorem c9_unused_parameter_independence_witness :
    get_redirect_url validUrl "inputsecret" "outputsecret" "/error/" =
      get_redirect_url validUrl "inputsecret" "outputsecret" "/other/" ∧
    (get_redirect_url invalidUrl "inputsecret" "osecret1" "/error/" = Except.ok "/error/" ∧
     get_redirect_url invalidUrl "inputsecret" "osecret2" "/error/" = Except.ok "/error/") :=
  ⟨(c9_unused_parameter_independence validUrl "inputsecret").1 "outputsecret"
      "/error/" "/other/" rfl,
   (c9_unused_parameter_independence invalidUrl "inputsecret").2 "osecret1" "osecret2"
      "/error/" rfl⟩
